import Mathlib

/-!
Verification of the csiro_workspace supervisor module
(`src/csiro_workspace/workspace.py`).

The Python module is embedded shallowly:

* JSON values exchanged with the workspace-web process are modelled by the
  inductive `Json`.  Arrays and objects are spine-encoded (`arrNil/arrCons`,
  `objNil/objCons`) so that equality of values is decidable by a derived
  instance; `Json.obj` builds an object spine from a Lean association list.
  Object spines are insertion ordered with unique keys, exactly like Python
  dicts; `Json.objLookup` / `Json.objInsert` mirror `d[k]` and `d[k] = v`.
* Python `dict`s used as registries inside the supervisor are modelled as
  association lists with `dictLookup` / `dictInsert` / `dictEraseKey`
  mirroring `d[k]`, `d[k] = v` and `del d[k]`.  `del` and subscripting raise
  `KeyError` on a missing key, so fallible operations return
  `Except PyError _`.
* `WatchList` mirrors the Python class of the same name; since Python is
  untyped, its four fields are arbitrary JSON values.  `json.dumps` /
  `json.loads` (Python standard library, external to this repository) are
  mutually inverse between JSON values and their string rendering, so
  serialisation round trips are stated at the level of `Json` values:
  `WatchList.fromJson` takes the already-decoded value (the result of
  `json.loads`) and `WatchList.asDict` is the value that `__str__` renders.
* Caller-supplied Python callback functions are opaque to the supervisor:
  they are modelled by an identity (`Nat`), and dispatch is modelled as a
  state transition that also reports which handler was invoked, with which
  argument, and what the session state was at the moment of the call
  (handlers receive the live `Workspace` object).  The model covers
  handlers that do not themselves mutate the supervisor's registries during
  dispatch, which is the regime all the properties below quantify over.
-/

set_option autoImplicit false
set_option linter.unusedVariables false

namespace CsiroWorkspace

/-- Decoded JSON values (the result of Python's `json.loads`).  Arrays and
objects are spine-encoded: `objCons k v tl` is the object `tl` with the
binding `k ↦ v` at the front.  Spines keep insertion order, as Python dicts
do. -/
inductive Json : Type where
  | null : Json
  | bool : Bool → Json
  | num : Int → Json
  | str : String → Json
  | arrNil : Json
  | arrCons : Json → Json → Json
  | objNil : Json
  | objCons : String → Json → Json → Json
deriving DecidableEq, Repr

/-- Build an object spine from an association list (readability helper for
concrete JSON objects). -/
def Json.obj : List (String × Json) → Json
  | [] => Json.objNil
  | (k, v) :: rest => Json.objCons k v (Json.obj rest)

/-- Whether a decoded value is a JSON object (a Python `dict`). -/
def Json.isObj : Json → Bool
  | Json.objNil => true
  | Json.objCons _ _ _ => true
  | _ => false

/-- Python `d[k]` / `k in d.keys()` on a decoded object: first binding for
the key (a decoded object has at most one).  Non-object spines have no
bindings. -/
def Json.objLookup : Json → String → Option Json
  | Json.objCons k v tl, key => if k = key then some v else Json.objLookup tl key
  | _, _ => none

/-- Python `d[k] = v` on a decoded object: update in place when the key
exists, append otherwise. -/
def Json.objInsert : Json → String → Json → Json
  | Json.objCons k v tl, key, val =>
      if k = key then Json.objCons key val tl
      else Json.objCons k v (Json.objInsert tl key val)
  | _, key, val => Json.objCons key val Json.objNil

/-- Python exceptions that the embedded fragment can raise. -/
inductive PyError : Type where
  | keyError : PyError
  | attributeError : PyError
  | userException : String → PyError
deriving DecidableEq, Repr

/-- Python `d[k]` on a registry dict: first binding for the key (a
well-formed dict has at most one). -/
def dictLookup {κ α : Type} [DecidableEq κ] : List (κ × α) → κ → Option α
  | [], _ => none
  | (k', v) :: rest, k => if k' = k then some v else dictLookup rest k

/-- Python `d[k] = v` on a registry dict: update in place when the key
exists, append otherwise. -/
def dictInsert {κ α : Type} [DecidableEq κ] : List (κ × α) → κ → α → List (κ × α)
  | [], k, v => [(k, v)]
  | (k', v') :: rest, k, v =>
      if k' = k then (k, v) :: rest else (k', v') :: dictInsert rest k v

/-- Python `del d[k]` once the key is known to be present: drops the first
binding for the key. -/
def dictEraseKey {κ α : Type} [DecidableEq κ] : List (κ × α) → κ → List (κ × α)
  | [], _ => []
  | (k', v') :: rest, k =>
      if k' = k then rest else (k', v') :: dictEraseKey rest k

/-- Python `k in d.keys()`. -/
def dictContains {κ α : Type} [DecidableEq κ] (l : List (κ × α)) (k : κ) : Bool :=
  (dictLookup l k).isSome

/-- The keys of a registry dict, in order. -/
def dictKeys {κ α : Type} (l : List (κ × α)) : List κ :=
  l.map Prod.fst

/-- `WatchList` (workspace.py:160): identifier plus the `inputs`, `outputs`
and `globalNames` members.  Python never constrains their types, so each
field is an arbitrary decoded JSON value; the constructors below produce
objects. -/
structure WatchList : Type where
  id : Json
  inputs : Json
  outputs : Json
  globalNames : Json
deriving DecidableEq, Repr

/-- The loop `for name in names: d[name] = {}` from `fromIONames`. -/
def namesToDict (names : List String) : Json :=
  names.foldl (fun d n => Json.objInsert d n Json.objNil) Json.objNil

/-- `WatchList.fromIONames` (workspace.py:167).  `uuid` stands for the fresh
`str(uuid.uuid4())` token, which is produced outside the module. -/
def WatchList.fromIONames (uuid : String) (inputs outputs globalNames : List String) :
    WatchList :=
  { id := Json.str uuid
    inputs := namesToDict inputs
    outputs := namesToDict outputs
    globalNames := namesToDict globalNames }

/-- `WatchList.fromJson` (workspace.py:187), applied to the decoded value.
On a decoded object it returns `None` when the `id` key is missing and
otherwise builds the `WatchList`, defaulting each absent member to `{}`.
On a decoded non-object, `wl.keys()` raises `AttributeError`. -/
def WatchList.fromJson (j : Json) : Except PyError (Option WatchList) :=
  if j.isObj = true then
    match Json.objLookup j "id" with
    | none => Except.ok none
    | some idv =>
        Except.ok (some
          { id := idv
            inputs := (Json.objLookup j "inputs").getD Json.objNil
            outputs := (Json.objLookup j "outputs").getD Json.objNil
            globalNames := (Json.objLookup j "globalNames").getD Json.objNil })
  else Except.error PyError.attributeError

/-- `WatchList.asDict` (workspace.py:246); `__str__` is `json.dumps` of this
value. -/
def WatchList.asDict (wl : WatchList) : Json :=
  Json.obj [("id", wl.id), ("inputs", wl.inputs), ("outputs", wl.outputs),
            ("globalNames", wl.globalNames)]

/-- `_WatchCallback` (workspace.py:289): the registered wrapper around a
caller-supplied watch handler.  The Python object also stores the owning
`workspace`; in the model the owning session's state is threaded
explicitly.  `callback` is the opaque identity of the caller's function. -/
structure WatchCallback : Type where
  watchId : Json
  callback : Nat
  autodelete : Bool
deriving DecidableEq, Repr

/-- The per-session mutable state relevant to the registries: `_watches`
(watch id ↦ registered `_WatchCallback`) and `_listRequests` (category ↦
pending list-query callback), both dicts initialised empty in `__init__`. -/
structure Session : Type where
  watches : List (Json × WatchCallback)
  listRequests : List (String × Nat)
deriving DecidableEq, Repr

/-- A record of one handler invocation performed during dispatch: which
caller-supplied function was called, the `WatchList` argument it received,
and the session state at the moment of the call (the handler is passed the
live `Workspace` object, so this is what it observes). -/
structure Invocation : Type where
  handler : Nat
  arg : WatchList
  stateAtCall : Session
deriving DecidableEq, Repr

namespace Workspace

/-- `Workspace._removeWatch` (workspace.py:532): `del self._watches[watchId]`,
which raises `KeyError` when the id is not registered. -/
def removeWatch (s : Session) (watchId : Json) : Except PyError Session :=
  if dictContains s.watches watchId = true then
    Except.ok { s with watches := dictEraseKey s.watches watchId }
  else Except.error PyError.keyError

/-- `_WatchCallback.__call__` (workspace.py:310): first invokes the stored
callback with the workspace (the current session state) and the resolved
watch list, then, if `autodelete`, removes the registration.  Returns the
invocation record together with the resulting state (or the error raised by
`_removeWatch`). -/
def watchCallbackCall (s : Session) (cb : WatchCallback) (wl : WatchList) :
    Invocation × Except PyError Session :=
  (⟨cb.callback, wl, s⟩,
   if cb.autodelete = true then removeWatch s cb.watchId else Except.ok s)

/-- The closure built by `Workspace._create_WatchCallback` (workspace.py:507):
decodes the payload, ignores it when decoding yields `None` or when the id
is not registered, and otherwise fires the registered `_WatchCallback`.
Returns the new session state and the (at most one) handler invocation. -/
def watchDispatch (s : Session) (payload : Json) :
    Except PyError (Session × List Invocation) :=
  match WatchList.fromJson payload with
  | Except.error e => Except.error e
  | Except.ok none => Except.ok (s, [])
  | Except.ok (some wl) =>
      match dictLookup s.watches wl.id with
      | none => Except.ok (s, [])
      | some cb =>
          match watchCallbackCall s cb wl with
          | (inv, Except.ok s') => Except.ok (s', [inv])
          | (_, Except.error e) => Except.error e

/-- `Workspace.watch` (workspace.py:736): stores a `_WatchCallback` under
`watchList.id`, then issues `workspace_watch` over the channel;
`channelAccepted` is the truthiness of that external call's result.  Returns
the id on success and `None` otherwise — but the registry write has already
happened in either case. -/
def watch (s : Session) (callback : Nat) (wl : WatchList) (autoDelete : Bool)
    (channelAccepted : Bool) : Session × Option Json :=
  let s' : Session :=
    { s with watches := dictInsert s.watches wl.id ⟨wl.id, callback, autoDelete⟩ }
  (s', if channelAccepted then some wl.id else none)

/-- `Workspace.cancelWatch` (workspace.py:752): `self._removeWatch(watchId)`
followed by the channel-side `workspace_cancel_watch`, which does not touch
the session state. -/
def cancelWatch (s : Session) (watchId : Json) : Except PyError Session :=
  removeWatch s watchId

/-- The slot write shared by `listInputs` / `listOutputs` /
`listGlobalNames` (workspace.py:760-788): `self._listRequests[ioType] =
callback`, then the corresponding channel list command is issued. -/
def listRequest (s : Session) (ioType : String) (callback : Nat) : Session :=
  { s with listRequests := dictInsert s.listRequests ioType callback }

/-- `Workspace.listInputs` (workspace.py:760). -/
def listInputs (s : Session) (callback : Nat) : Session :=
  listRequest s "inputs" callback

/-- `Workspace.listOutputs` (workspace.py:770). -/
def listOutputs (s : Session) (callback : Nat) : Session :=
  listRequest s "outputs" callback

/-- `Workspace.listGlobalNames` (workspace.py:780). -/
def listGlobalNames (s : Session) (callback : Nat) : Session :=
  listRequest s "globalNames" callback

/-- The closure built by `Workspace._createListCallback` (workspace.py:519):
decodes the payload, then runs `self._listRequests[ioType](self, ioList)`
and deletes the slot.  The subscript raises `KeyError` when no slot is
registered for the category.  On success returns the new state and which
callback fired with which decoded list. -/
def listDispatch (s : Session) (ioType : String) (payload : Json) :
    Except PyError (Session × (Nat × Option WatchList)) :=
  match WatchList.fromJson payload with
  | Except.error e => Except.error e
  | Except.ok ioList =>
      match dictLookup s.listRequests ioType with
      | none => Except.error PyError.keyError
      | some cb =>
          Except.ok ({ s with listRequests := dictEraseKey s.listRequests ioType },
                     (cb, ioList))

end Workspace

/-- Python values returned by caller-supplied handlers (whatever subset is
relevant: the channel only cares about truthiness, via the ctypes `c_int`
coercion). -/
inductive PyVal : Type where
  | none : PyVal
  | bool : Bool → PyVal
  | int : Int → PyVal
  | str : String → PyVal
deriving DecidableEq, Repr

/-- Python truthiness of a handler's return value. -/
def pyTruthy : PyVal → Bool
  | PyVal.none => false
  | PyVal.bool b => b
  | PyVal.int n => if n = 0 then false else true
  | PyVal.str s => if s = "" then false else true

namespace Workspace

/-- The closure built by `Workspace._createSuccessCallback` (workspace.py:468):
`try: return self._onSuccessFunc(self) except: return True`.  `attempt` is
the outcome of evaluating the caller-supplied handler — `ok` with its return
value, or `error` for any exception it raised (including the `TypeError`
from `_onSuccessFunc` still being `None`); the bare `except:` catches them
all. -/
def successCallback (attempt : Except PyError PyVal) : PyVal :=
  match attempt with
  | Except.ok v => v
  | Except.error _ => PyVal.bool true

/-- The closure built by `Workspace._createFailedCallback` (workspace.py:481),
identical in shape to the success one. -/
def failedCallback (attempt : Except PyError PyVal) : PyVal :=
  match attempt with
  | Except.ok v => v
  | Except.error _ => PyVal.bool true

/-- The closure built by `Workspace._createErrorCallback` (workspace.py:494):
`try: return self._onErrorFunc(self, errorMessage) except: return True`.
`attempt` is the outcome of the handler on the given message. -/
def errorCallback (errorMessage : String) (attempt : Except PyError PyVal) : PyVal :=
  match attempt with
  | Except.ok v => v
  | Except.error _ => PyVal.bool true

end Workspace

/-- One entry of `Workspace._terminating_processes`: the tuple
`(datetime.datetime.now(), self)` appended by `terminate`.  Times are in
whole seconds; the session object is identified by an opaque id. -/
structure TermRecord : Type where
  timeTerminated : Nat
  sessionId : Nat
deriving DecidableEq, Repr

/-- The process-wide registry state touched by the sweep:
`_registered_workspaces` (as the list of registered session ids), plus event
logs — `killed` records each `ws._process.kill()` and `cleaned` records each
`ws._cleanup()` (the release of the session's callback references), in
order. -/
structure RegistryState : Type where
  registered : List Nat
  killed : List Nat
  cleaned : List Nat
deriving DecidableEq, Repr

namespace Workspace

/-- `Workspace._cleanup` (workspace.py:539): clears the process reference,
deletes the session's callback closures, and removes the session from
`Workspace._registered_workspaces`. -/
def cleanup (st : RegistryState) (sid : Nat) : RegistryState :=
  { st with registered := st.registered.erase sid, cleaned := st.cleaned ++ [sid] }

/-- The body of the sweep loop in `Workspace.poll` (workspace.py:432-442)
for one record `r` of the in-iteration list `l`.  `exited sid` is whether
`ws._process.poll()` reports the child as exited (`None` means still
running).  Elapsed time is compared through
`(datetime.datetime.now() - timeTerminated).seconds`, the seconds component
of the timedelta, i.e. the total elapsed seconds mod 86400. -/
def sweepStep (timeout now : Nat) (exited : Nat → Bool) (l : List TermRecord)
    (st : RegistryState) (r : TermRecord) : List TermRecord × RegistryState :=
  if exited r.sessionId = false then
    if (now - r.timeTerminated) % 86400 > timeout then
      (l.erase r, cleanup { st with killed := st.killed ++ [r.sessionId] } r.sessionId)
    else (l, st)
  else
    (l.erase r, cleanup st r.sessionId)

/-- The `for procRef in Workspace._terminating_processes` loop of `poll`: a
Python list iterator holds an index, incremented after every yielded
element, over the very list that `remove` mutates — so the element directly
after a removed one is skipped in that sweep.  `fuel` merely bounds the
recursion: it starts at the list's length, and since every step raises the
index by one while never lengthening the list, the index passes the end of
the list before fuel runs out; the zero-fuel branch therefore coincides
with the loop's exhaustion test. -/
def sweepAux (timeout now : Nat) (exited : Nat → Bool) :
    Nat → Nat → List TermRecord → RegistryState → List TermRecord × RegistryState
  | 0, _, l, st => (l, st)
  | fuel + 1, i, l, st =>
      match l[i]? with
      | none => (l, st)
      | some r =>
          let step := sweepStep timeout now exited l st r
          sweepAux timeout now exited fuel (i + 1) step.1 step.2

/-- `Workspace.poll` (workspace.py:415): `server_poll` drains the channel
(external; its dispatches are modelled separately by `watchDispatch`,
`listDispatch` and the success/failed/error callbacks), then the pending
termination queue is swept as above. -/
def poll (timeout now : Nat) (exited : Nat → Bool) (q : List TermRecord)
    (st : RegistryState) : List TermRecord × RegistryState :=
  sweepAux timeout now exited q.length 0 q st

/-- `Workspace.terminate` (workspace.py:689): returns immediately when the
process reference has already been cleared; otherwise issues
`workspace_terminate` over the channel and appends `(now, self)` to the
pending-termination queue. -/
def terminate (now : Nat) (sid : Nat) (hasProcess : Bool)
    (q : List TermRecord) : List TermRecord :=
  if hasProcess then q ++ [⟨now, sid⟩] else q

end Workspace

/-! ### Registry-dict lemmas -/

theorem dictLookup_dictInsert_self {κ α : Type} [DecidableEq κ]
    (l : List (κ × α)) (k : κ) (v : α) :
    dictLookup (dictInsert l k v) k = some v := by
  induction l with
  | nil => simp [dictInsert, dictLookup]
  | cons hd tl ih =>
      obtain ⟨k', v'⟩ := hd
      by_cases h : k' = k
      · subst h
        simp [dictInsert, dictLookup]
      · simp [dictInsert, dictLookup, h, ih]

theorem dictLookup_dictInsert_ne {κ α : Type} [DecidableEq κ]
    (l : List (κ × α)) (k k' : κ) (v : α) (h : k' ≠ k) :
    dictLookup (dictInsert l k v) k' = dictLookup l k' := by
  induction l with
  | nil => simp [dictInsert, dictLookup, Ne.symm h]
  | cons hd tl ih =>
      obtain ⟨k'', v''⟩ := hd
      by_cases hk : k'' = k
      · subst hk
        simp [dictInsert, dictLookup, Ne.symm h]
      · by_cases hk' : k'' = k'
        · subst hk'
          simp [dictInsert, dictLookup, hk]
        · simp [dictInsert, dictLookup, hk, hk', ih]

theorem dictLookup_eq_none_of_not_mem {κ α : Type} [DecidableEq κ]
    (l : List (κ × α)) (k : κ) (h : k ∉ dictKeys l) :
    dictLookup l k = none := by
  induction l with
  | nil => simp [dictLookup]
  | cons hd tl ih =>
      obtain ⟨k', v'⟩ := hd
      simp only [dictKeys, List.map_cons, List.mem_cons, not_or] at h
      have h1 : k' ≠ k := fun hh => h.1 hh.symm
      have h2 : dictLookup tl k = none := ih (by simpa [dictKeys] using h.2)
      simp [dictLookup, h1, h2]

theorem dictLookup_dictEraseKey_self {κ α : Type} [DecidableEq κ]
    (l : List (κ × α)) (k : κ) (hnodup : (dictKeys l).Nodup) :
    dictLookup (dictEraseKey l k) k = none := by
  induction l with
  | nil => simp [dictEraseKey, dictLookup]
  | cons hd tl ih =>
      obtain ⟨k', v'⟩ := hd
      simp only [dictKeys, List.map_cons, List.nodup_cons] at hnodup
      by_cases h : k' = k
      · subst h
        have h2 : dictLookup tl k' = none :=
          dictLookup_eq_none_of_not_mem tl k' (by simpa [dictKeys] using hnodup.1)
        simpa [dictEraseKey] using h2
      · simp [dictEraseKey, dictLookup, h, ih (by simpa [dictKeys] using hnodup.2)]

theorem dictLookup_dictEraseKey_ne {κ α : Type} [DecidableEq κ]
    (l : List (κ × α)) (k k' : κ) (h : k' ≠ k) :
    dictLookup (dictEraseKey l k) k' = dictLookup l k' := by
  induction l with
  | nil => simp [dictEraseKey]
  | cons hd tl ih =>
      obtain ⟨k'', v''⟩ := hd
      by_cases hk : k'' = k
      · subst hk
        simp [dictEraseKey, dictLookup, Ne.symm h]
      · by_cases hk' : k'' = k'
        · subst hk'
          simp [dictEraseKey, dictLookup, hk]
        · simp [dictEraseKey, dictLookup, hk, hk', ih]

theorem dictContains_true_iff {κ α : Type} [DecidableEq κ]
    (l : List (κ × α)) (k : κ) :
    dictContains l k = true ↔ ∃ v, dictLookup l k = some v := by
  simp [dictContains, Option.isSome_iff_exists]

theorem mem_dictKeys_dictInsert {κ α : Type} [DecidableEq κ]
    (l : List (κ × α)) (k k' : κ) (v : α) :
    k' ∈ dictKeys (dictInsert l k v) ↔ k' ∈ dictKeys l ∨ k' = k := by
  induction l with
  | nil => simp [dictInsert, dictKeys]
  | cons hd tl ih =>
      obtain ⟨k'', v''⟩ := hd
      by_cases hk : k'' = k
      · subst hk
        simp [dictInsert, dictKeys]
        tauto
      · simp only [dictInsert, hk, if_false, dictKeys, List.map_cons, List.mem_cons]
        rw [show (List.map Prod.fst (dictInsert tl k v) : List κ) = dictKeys (dictInsert tl k v) from rfl]
        rw [ih]
        simp [dictKeys]
        tauto

theorem dictKeys_dictInsert_nodup {κ α : Type} [DecidableEq κ]
    (l : List (κ × α)) (k : κ) (v : α) (h : (dictKeys l).Nodup) :
    (dictKeys (dictInsert l k v)).Nodup := by
  induction l with
  | nil => simp [dictInsert, dictKeys]
  | cons hd tl ih =>
      obtain ⟨k'', v''⟩ := hd
      simp only [dictKeys, List.map_cons, List.nodup_cons] at h
      by_cases hk : k'' = k
      · subst hk
        simp only [dictInsert, eq_self_iff_true, ite_true, dictKeys, List.map_cons,
          List.nodup_cons]
        exact ⟨by simpa [dictKeys] using h.1, by simpa [dictKeys] using h.2⟩
      · simp only [dictInsert, hk, if_false, dictKeys, List.map_cons, List.nodup_cons]
        constructor
        · intro hmem
          rw [show (List.map Prod.fst (dictInsert tl k v) : List κ) = dictKeys (dictInsert tl k v) from rfl] at hmem
          rw [mem_dictKeys_dictInsert] at hmem
          rcases hmem with hmem | hmem
          · exact h.1 (by simpa [dictKeys] using hmem)
          · exact hk hmem
        · exact ih (by simpa [dictKeys] using h.2)

/-- Decoding the value serialised by `__str__` recovers the original
`WatchList` (`json.loads` inverts `json.dumps`; at the value level the
composition is `fromJson ∘ asDict`). -/
theorem WatchList.fromJson_asDict (wl : WatchList) :
    WatchList.fromJson (WatchList.asDict wl) = Except.ok (some wl) := by
  obtain ⟨i, a, b, c⟩ := wl
  simp [WatchList.asDict, WatchList.fromJson, Json.obj, Json.isObj, Json.objLookup]

/-! ### Claims -/

/-- C5: every exception raised by a caller-supplied `onSuccess`, `onFailed`
or `onError` handler during dispatch is caught by the dispatch-boundary
callback, which returns the truthy acknowledgement `True` to the channel
instead of propagating the exception. -/
theorem handler_exception_gives_truthy_ack (e : PyError) (msg : String) :
    Workspace.successCallback (Except.error e) = PyVal.bool true ∧
    Workspace.failedCallback (Except.error e) = PyVal.bool true ∧
    Workspace.errorCallback msg (Except.error e) = PyVal.bool true ∧
    pyTruthy (PyVal.bool true) = true :=
  ⟨rfl, rfl, rfl, rfl⟩

/-- C6: an incoming watch event whose payload decodes without an `id` (so
parsing yields `None`), or whose id is not present in the session's watch
registry, is silently ignored: no handler is invoked, no error is raised,
and the session state is unchanged. -/
theorem watch_event_unknown_id_ignored (s : Session) (payload : Json)
    (h : WatchList.fromJson payload = Except.ok none ∨
         ∃ wl : WatchList, WatchList.fromJson payload = Except.ok (some wl) ∧
           dictLookup s.watches wl.id = none) :
    Workspace.watchDispatch s payload = Except.ok (s, []) := by
  rcases h with h | ⟨wl, h1, h2⟩
  · simp [Workspace.watchDispatch, h]
  · simp [Workspace.watchDispatch, h1, h2]

/-- Witness for C6: an event for id `"w"` arriving at a session with an
empty watch registry is dropped without error. -/
theorem watch_event_unknown_id_ignored_witness :
    Workspace.watchDispatch ⟨[], []⟩ (Json.obj [("id", Json.str "w")]) =
      Except.ok (⟨[], []⟩, []) :=
  watch_event_unknown_id_ignored ⟨[], []⟩ (Json.obj [("id", Json.str "w")])
    (Or.inr ⟨⟨Json.str "w", Json.objNil, Json.objNil, Json.objNil⟩, rfl, rfl⟩)

/-- C10: `fromJson` on a decoded object lacking an `id` key returns `None`
(malformed message); on a decoded object with an `id` key it returns a
`WatchList` carrying that id, with each absent `inputs` / `outputs` /
`globalNames` member defaulting to an empty mapping. -/
theorem fromJson_requires_id_and_defaults (j : Json) (hobj : j.isObj = true) :
    (Json.objLookup j "id" = none → WatchList.fromJson j = Except.ok none) ∧
    (∀ idv : Json, Json.objLookup j "id" = some idv →
      WatchList.fromJson j = Except.ok (some
        { id := idv
          inputs := (Json.objLookup j "inputs").getD Json.objNil
          outputs := (Json.objLookup j "outputs").getD Json.objNil
          globalNames := (Json.objLookup j "globalNames").getD Json.objNil })) := by
  constructor
  · intro h
    simp [WatchList.fromJson, hobj, h]
  · intro idv h
    simp [WatchList.fromJson, hobj, h]

/-- Witness for C10: an object without `id` yields `None`; an object with
only an `id` yields a `WatchList` whose three mappings default to `{}`. -/
theorem fromJson_requires_id_and_defaults_witness :
    WatchList.fromJson (Json.obj [("inputs", Json.objNil)]) = Except.ok none ∧
    WatchList.fromJson (Json.obj [("id", Json.str "A")]) =
      Except.ok (some ⟨Json.str "A", Json.objNil, Json.objNil, Json.objNil⟩) := by
  constructor
  · exact (fromJson_requires_id_and_defaults (Json.obj [("inputs", Json.objNil)]) rfl).1 rfl
  · exact (fromJson_requires_id_and_defaults (Json.obj [("id", Json.str "A")]) rfl).2
      (Json.str "A") rfl

/-- C8: a `WatchList` built with `fromIONames(outputs=["Result"])`,
serialised by `__str__` and parsed back with `fromJson`, yields a
`WatchList` with the same id, an `outputs` mapping holding exactly the one
empty entry `"Result"`, and empty `inputs` and `globalNames` mappings. -/
theorem watchlist_roundtrip_fromIONames (uuid : String) :
    WatchList.fromJson (WatchList.asDict (WatchList.fromIONames uuid [] ["Result"] [])) =
      Except.ok (some (WatchList.fromIONames uuid [] ["Result"] [])) ∧
    (WatchList.fromIONames uuid [] ["Result"] []).id = Json.str uuid ∧
    (WatchList.fromIONames uuid [] ["Result"] []).outputs =
      Json.objCons "Result" Json.objNil Json.objNil ∧
    (WatchList.fromIONames uuid [] ["Result"] []).inputs = Json.objNil ∧
    (WatchList.fromIONames uuid [] ["Result"] []).globalNames = Json.objNil :=
  ⟨WatchList.fromJson_asDict _, rfl, rfl, rfl, rfl⟩

/-- C7: when the channel-level registration fails (`workspace_watch` returns
a falsy result), `watch()` returns `None`, yet the handler has already been
stored in the session's watch registry under the watch list's id and is not
rolled back — and a later event carrying that id still invokes the
handler. -/
theorem watch_failed_registration_keeps_handler (s : Session) (callback : Nat)
    (wl : WatchList) (autoDelete : Bool) :
    (Workspace.watch s callback wl autoDelete false).2 = none ∧
    dictLookup (Workspace.watch s callback wl autoDelete false).1.watches wl.id =
      some ⟨wl.id, callback, autoDelete⟩ ∧
    ∃ s' : Session,
      Workspace.watchDispatch (Workspace.watch s callback wl autoDelete false).1
          (WatchList.asDict wl) =
        Except.ok (s', [⟨callback, wl, (Workspace.watch s callback wl autoDelete false).1⟩]) := by
  refine ⟨rfl, by simp [Workspace.watch, dictLookup_dictInsert_self], ?_⟩
  cases autoDelete with
  | false =>
      refine ⟨(Workspace.watch s callback wl false false).1, ?_⟩
      simp [Workspace.watchDispatch, WatchList.fromJson_asDict, Workspace.watch,
        dictLookup_dictInsert_self, Workspace.watchCallbackCall]
  | true =>
      refine ⟨{ (Workspace.watch s callback wl true false).1 with
                 watches := dictEraseKey
                   (Workspace.watch s callback wl true false).1.watches wl.id }, ?_⟩
      simp [Workspace.watchDispatch, WatchList.fromJson_asDict, Workspace.watch,
        dictLookup_dictInsert_self, Workspace.watchCallbackCall, Workspace.removeWatch,
        dictContains]

/-- C9: calling `watch()` a second time with a `WatchList` bearing the same
id replaces the previously registered handler (last write wins): afterwards
the registry maps that id to the new registration only, and every other id
is unchanged. -/
theorem watch_same_id_last_write_wins (s : Session) (cb1 cb2 : Nat)
    (wl1 wl2 : WatchList) (a1 a2 ok1 ok2 : Bool) (hid : wl2.id = wl1.id) :
    dictLookup (Workspace.watch (Workspace.watch s cb1 wl1 a1 ok1).1 cb2 wl2 a2 ok2).1.watches
        wl1.id = some ⟨wl2.id, cb2, a2⟩ ∧
    ∀ k : Json, k ≠ wl1.id →
      dictLookup (Workspace.watch (Workspace.watch s cb1 wl1 a1 ok1).1 cb2 wl2 a2 ok2).1.watches
          k = dictLookup s.watches k := by
  constructor
  · simp [Workspace.watch, hid, dictLookup_dictInsert_self]
  · intro k hk
    simp only [Workspace.watch]
    rw [hid, dictLookup_dictInsert_ne _ _ _ _ hk, dictLookup_dictInsert_ne _ _ _ _ hk]

/-- Witness for C9: re-registering id `"r"` leaves only the second handler
(identity 2) for `"r"` and no registration for any other id. -/
theorem watch_same_id_last_write_wins_witness :
    dictLookup (Workspace.watch
        (Workspace.watch ⟨[], []⟩ 1 ⟨Json.str "r", Json.objNil, Json.objNil, Json.objNil⟩
          true true).1
        2 ⟨Json.str "r", Json.objNil, Json.objNil, Json.objNil⟩ false true).1.watches
      (Json.str "r") = some ⟨Json.str "r", 2, false⟩ ∧
    dictLookup (Workspace.watch
        (Workspace.watch ⟨[], []⟩ 1 ⟨Json.str "r", Json.objNil, Json.objNil, Json.objNil⟩
          true true).1
        2 ⟨Json.str "r", Json.objNil, Json.objNil, Json.objNil⟩ false true).1.watches
      (Json.str "q") = none := by
  have h := watch_same_id_last_write_wins ⟨[], []⟩ 1 2
    ⟨Json.str "r", Json.objNil, Json.objNil, Json.objNil⟩
    ⟨Json.str "r", Json.objNil, Json.objNil, Json.objNil⟩ true false true true rfl
  exact ⟨h.1, h.2 (Json.str "q") (by decide)⟩

/-- C1 counterexample: a session holding the single autodelete watch `"w"`
(handler identity 7) receives the watch event for `"w"`.  The handler is
invoked with the session state in which the registration is still present —
the watch id is not absent from the registry at the moment the handler
runs, refuting removal-before-invocation (removal happens after the call:
workspace.py:317-319). -/
theorem autodelete_removed_before_handler_counterexample :
    Workspace.watchDispatch
        ⟨[(Json.str "w", ⟨Json.str "w", 7, true⟩)], []⟩
        (Json.obj [("id", Json.str "w")]) =
      Except.ok (⟨[], []⟩,
        [⟨7, ⟨Json.str "w", Json.objNil, Json.objNil, Json.objNil⟩,
          ⟨[(Json.str "w", ⟨Json.str "w", 7, true⟩)], []⟩⟩]) ∧
    dictContains [(Json.str "w", (⟨Json.str "w", 7, true⟩ : WatchCallback))]
      (Json.str "w") = true :=
  ⟨rfl, rfl⟩

/-- C1 amended: for an autodelete watch, the registration is removed
immediately AFTER the caller's handler returns and before the
acknowledgement is passed back to the channel — not before the handler is
invoked.  The id is still present in the registry while the handler runs,
it is absent as soon as dispatch of the event completes, and a further
event for the same id then invokes no handler, so the handler fires at most
once per registration. -/
theorem autodelete_removed_after_handler (s : Session) (cb : WatchCallback)
    (payload : Json) (wl : WatchList)
    (hparse : WatchList.fromJson payload = Except.ok (some wl))
    (hlook : dictLookup s.watches wl.id = some cb)
    (hauto : cb.autodelete = true)
    (hid : cb.watchId = wl.id)
    (hnodup : (dictKeys s.watches).Nodup) :
    Workspace.watchDispatch s payload =
      Except.ok ({ s with watches := dictEraseKey s.watches wl.id },
                 [⟨cb.callback, wl, s⟩]) ∧
    dictContains s.watches wl.id = true ∧
    dictLookup (dictEraseKey s.watches wl.id) wl.id = none ∧
    Workspace.watchDispatch { s with watches := dictEraseKey s.watches wl.id } payload =
      Except.ok ({ s with watches := dictEraseKey s.watches wl.id }, []) := by
  have hcont : dictContains s.watches wl.id = true := by simp [dictContains, hlook]
  have herase : dictLookup (dictEraseKey s.watches wl.id) wl.id = none :=
    dictLookup_dictEraseKey_self _ _ hnodup
  refine ⟨?_, hcont, herase, ?_⟩
  · simp [Workspace.watchDispatch, hparse, hlook, Workspace.watchCallbackCall, hauto, hid,
      Workspace.removeWatch, hcont]
  · simp [Workspace.watchDispatch, hparse, herase]

/-- Witness for C1 amended at a concrete session: one delivery invokes the
handler, a replay of the same event delivers nothing. -/
theorem autodelete_removed_after_handler_witness :
    Workspace.watchDispatch ⟨[(Json.str "a", ⟨Json.str "a", 3, true⟩)], []⟩
        (Json.obj [("id", Json.str "a")]) =
      Except.ok (⟨[], []⟩,
        [⟨3, ⟨Json.str "a", Json.objNil, Json.objNil, Json.objNil⟩,
          ⟨[(Json.str "a", ⟨Json.str "a", 3, true⟩)], []⟩⟩]) ∧
    Workspace.watchDispatch ⟨[], []⟩ (Json.obj [("id", Json.str "a")]) =
      Except.ok (⟨[], []⟩, []) := by
  have h := autodelete_removed_after_handler
    ⟨[(Json.str "a", ⟨Json.str "a", 3, true⟩)], []⟩
    ⟨Json.str "a", 3, true⟩
    (Json.obj [("id", Json.str "a")])
    ⟨Json.str "a", Json.objNil, Json.objNil, Json.objNil⟩
    rfl rfl rfl rfl (by decide)
  exact ⟨h.1, h.2.2.2⟩

/-- C4 counterexample: `cancelWatch` with an id that is not registered
raises `KeyError` (from `del self._watches[watchId]`) — it is not a
no-op. -/
theorem cancelWatch_unknown_id_counterexample :
    Workspace.cancelWatch ⟨[], []⟩ (Json.str "w") = Except.error PyError.keyError :=
  rfl

/-- C4 amended: `cancelWatch` on an id present in the registry removes
exactly that registration and leaves every other id unchanged; calling it
with an id not present (already cancelled, already autodeleted, or never
registered) raises `KeyError`, so it is not idempotent. -/
theorem cancelWatch_amended (s : Session) (watchId : Json)
    (hnodup : (dictKeys s.watches).Nodup) :
    (dictContains s.watches watchId = false →
       Workspace.cancelWatch s watchId = Except.error PyError.keyError) ∧
    (dictContains s.watches watchId = true →
       Workspace.cancelWatch s watchId =
         Except.ok { s with watches := dictEraseKey s.watches watchId } ∧
       dictLookup (dictEraseKey s.watches watchId) watchId = none ∧
       ∀ k : Json, k ≠ watchId →
         dictLookup (dictEraseKey s.watches watchId) k = dictLookup s.watches k) := by
  constructor
  · intro h
    simp [Workspace.cancelWatch, Workspace.removeWatch, h]
  · intro h
    exact ⟨by simp [Workspace.cancelWatch, Workspace.removeWatch, h],
           dictLookup_dictEraseKey_self _ _ hnodup,
           fun k hk => dictLookup_dictEraseKey_ne _ _ _ hk⟩

/-- Witness for C4 amended: cancelling the registered id `"a"` succeeds and
empties the registry; cancelling the unknown id `"b"` raises `KeyError`. -/
theorem cancelWatch_amended_witness :
    Workspace.cancelWatch ⟨[(Json.str "a", ⟨Json.str "a", 1, false⟩)], []⟩ (Json.str "a") =
      Except.ok ⟨[], []⟩ ∧
    Workspace.cancelWatch ⟨[(Json.str "a", ⟨Json.str "a", 1, false⟩)], []⟩ (Json.str "b") =
      Except.error PyError.keyError := by
  have h1 := cancelWatch_amended ⟨[(Json.str "a", ⟨Json.str "a", 1, false⟩)], []⟩
    (Json.str "a") (by decide)
  have h2 := cancelWatch_amended ⟨[(Json.str "a", ⟨Json.str "a", 1, false⟩)], []⟩
    (Json.str "b") (by decide)
  exact ⟨(h1.2 rfl).1, h2.1 rfl⟩

/-- C3 counterexample: a list delivery arriving for a category with no
registered slot raises `KeyError` (`self._listRequests[ioType]` has no
guard), instead of being dropped without error. -/
theorem list_delivery_without_slot_counterexample :
    Workspace.listDispatch ⟨[], []⟩ "inputs" (Json.obj [("id", Json.str "x")]) =
      Except.error PyError.keyError :=
  rfl

/-- C3 amended: issuing a second list query for the same category while one
is outstanding overwrites the stored callback, so the delivery for that
category fires only the second callback; but when a delivery arrives for a
category with no registered slot (e.g. after the single slot has been
consumed by the first delivery), the dispatcher raises `KeyError` — the
delivery is not dropped silently (the exception is trapped only at the
ctypes FFI boundary, outside this module). -/
theorem list_query_overwrite_amended (s : Session) (cb1 cb2 : Nat)
    (payload : Json) (owl : Option WatchList)
    (hparse : WatchList.fromJson payload = Except.ok owl)
    (hnodup : (dictKeys s.listRequests).Nodup) :
    dictLookup (Workspace.listInputs (Workspace.listInputs s cb1) cb2).listRequests "inputs" =
      some cb2 ∧
    Workspace.listDispatch (Workspace.listInputs (Workspace.listInputs s cb1) cb2) "inputs"
        payload =
      Except.ok
        ({ Workspace.listInputs (Workspace.listInputs s cb1) cb2 with
             listRequests := dictEraseKey
               (Workspace.listInputs (Workspace.listInputs s cb1) cb2).listRequests "inputs" },
         (cb2, owl)) ∧
    Workspace.listDispatch
        { Workspace.listInputs (Workspace.listInputs s cb1) cb2 with
            listRequests := dictEraseKey
              (Workspace.listInputs (Workspace.listInputs s cb1) cb2).listRequests "inputs" }
        "inputs" payload =
      Except.error PyError.keyError := by
  have hlook : dictLookup
      (Workspace.listInputs (Workspace.listInputs s cb1) cb2).listRequests "inputs" =
      some cb2 := by
    simp [Workspace.listInputs, Workspace.listRequest, dictLookup_dictInsert_self]
  have hnodup2 : (dictKeys
      (Workspace.listInputs (Workspace.listInputs s cb1) cb2).listRequests).Nodup := by
    simp only [Workspace.listInputs, Workspace.listRequest]
    exact dictKeys_dictInsert_nodup _ _ _ (dictKeys_dictInsert_nodup _ _ _ hnodup)
  have herase : dictLookup
      (dictEraseKey (Workspace.listInputs (Workspace.listInputs s cb1) cb2).listRequests
        "inputs") "inputs" = none :=
    dictLookup_dictEraseKey_self _ _ hnodup2
  refine ⟨hlook, ?_, ?_⟩
  · simp [Workspace.listDispatch, hparse, hlook]
  · simp [Workspace.listDispatch, hparse, herase]

/-- Witness for C3 amended: two queries, one delivery firing the second
callback, and a `KeyError` on a further delivery. -/
theorem list_query_overwrite_amended_witness :
    dictLookup (Workspace.listInputs (Workspace.listInputs ⟨[], []⟩ 1) 2).listRequests
      "inputs" = some 2 ∧
    Workspace.listDispatch (Workspace.listInputs (Workspace.listInputs ⟨[], []⟩ 1) 2)
        "inputs" (Json.obj [("id", Json.str "L")]) =
      Except.ok (⟨[], []⟩,
        (2, some ⟨Json.str "L", Json.objNil, Json.objNil, Json.objNil⟩)) ∧
    Workspace.listDispatch ⟨[], []⟩ "inputs" (Json.obj [("id", Json.str "L")]) =
      Except.error PyError.keyError := by
  have h := list_query_overwrite_amended ⟨[], []⟩ 1 2 (Json.obj [("id", Json.str "L")])
    (some ⟨Json.str "L", Json.objNil, Json.objNil, Json.objNil⟩) rfl (by decide)
  exact ⟨h.1, h.2.1, h.2.2⟩

/-- C2 counterexample: two sessions are terminated at time 0 with
termination timeout 10 s and neither child process has exited; a poll at
time 20 s — later than the timeout after both termination requests — kills
and finalizes only session 1 and leaves session 2's record in the queue
with its process unkilled, because the loop removes entries from the list
it is iterating and so skips the element directly after a removed one.
This refutes the claim that once such a poll occurs, every overdue process
is killed and its record removed by that poll. -/
theorem poll_termination_counterexample :
    Workspace.poll 10 20 (fun _ => false) [⟨0, 1⟩, ⟨0, 2⟩] ⟨[1, 2], [], []⟩ =
      ([⟨0, 2⟩], ⟨[2], [1], [1]⟩) :=
  rfl

/-- C2 amended: for a termination record that the poll's sweep actually
reaches (the loop removes entries from the list it iterates, so the record
directly after a removed one is skipped by that sweep and handled by a
later poll) and whose elapsed time is under a day (the code compares the
seconds component of the timedelta): if the child process has exited, the
record is removed and the session finalized without a kill; otherwise, once
the elapsed time since the termination request exceeds the configured
termination timeout, the process is killed exactly once, the session is
finalized (callback references released, registry entry removed) and the
record removed — and a later poll over the emptied queue performs no
further kill; while the timeout has not elapsed, nothing happens. -/
theorem poll_termination_escalation (timeout now : Nat) (exited : Nat → Bool)
    (r : TermRecord) (st : RegistryState)
    (hwrap : now - r.timeTerminated ≤ 86399) :
    (exited r.sessionId = true →
       Workspace.poll timeout now exited [r] st = ([], Workspace.cleanup st r.sessionId)) ∧
    (exited r.sessionId = false → now - r.timeTerminated > timeout →
       Workspace.poll timeout now exited [r] st =
         ([], Workspace.cleanup { st with killed := st.killed ++ [r.sessionId] } r.sessionId) ∧
       ∀ (timeout2 now2 : Nat) (exited2 : Nat → Bool) (st2 : RegistryState),
         Workspace.poll timeout2 now2 exited2 [] st2 = ([], st2)) ∧
    (exited r.sessionId = false → now - r.timeTerminated ≤ timeout →
       Workspace.poll timeout now exited [r] st = ([r], st)) := by
  have hmod : (now - r.timeTerminated) % 86400 = now - r.timeTerminated :=
    Nat.mod_eq_of_lt (by omega)
  refine ⟨?_, ?_, ?_⟩
  · intro hex
    simp [Workspace.poll, Workspace.sweepAux, Workspace.sweepStep, hex]
  · intro hex hgt
    have hcond : (now - r.timeTerminated) % 86400 > timeout := by rw [hmod]; exact hgt
    refine ⟨?_, fun t2 n2 e2 s2 => rfl⟩
    simp [Workspace.poll, Workspace.sweepAux, Workspace.sweepStep, hex, hcond]
  · intro hex hle
    have hcond : ¬ ((now - r.timeTerminated) % 86400 > timeout) := by rw [hmod]; omega
    simp [Workspace.poll, Workspace.sweepAux, Workspace.sweepStep, hex, hcond]

/-- Witness for C2 amended: a session terminated at time 0 (queue built by
`terminate`), process never exiting, timeout 10 s; the poll at time 20 s
kills and finalizes it and empties the queue. -/
theorem poll_termination_escalation_witness :
    Workspace.poll 10 20 (fun _ => false) (Workspace.terminate 0 1 true []) ⟨[1], [], []⟩ =
      ([], ⟨[], [1], [1]⟩) := by
  have h := (poll_termination_escalation 10 20 (fun _ => false) ⟨0, 1⟩ ⟨[1], [], []⟩
    (by decide)).2.1 rfl (by decide)
  exact h.1

end CsiroWorkspace
